import Mathlib

/-!
Verification of the suspense-cache layer of this repository
(`src/react/cache/SuspenseCache.ts`, `src/react/hooks/useBackgroundQuery.ts`
and the variant hook file): the cache entry model, key canonicalization,
the promise-state machine installed by `SuspenseCache.add`, the hook-level
lookup-or-add / refetch / fetch-more flows, the watch-query option
construction, and the update-listener equality gating.

Machine-level conventions of the embedding:
* A JS object identity (a parsed query document, an `ObservableQuery`
  instance, a promise object) is modelled as a `Nat` token.
* A JS `Map` is modelled as an association list with the usual
  `get` / `set` / `delete` operations (a JS `Map` never holds a
  duplicate key, so deleting every matching key is faithful).
* Query variables are modelled as an ordered list of string-keyed
  entries whose value is `Option Scalar`; `none` plays the role of a
  JS `undefined` value for that key.
-/

/-- Scalar JSON-like values appearing in query variables and results. -/
inductive Scalar where
  | sNum (n : Int)
  | sStr (s : String)
  | sBool (b : Bool)
  | sNull
deriving DecidableEq, Repr

/-- A JS object of query variables: entries in property order; a `none`
value models an explicit `undefined` property. -/
abbrev Vars := List (String × Option Scalar)

/-- Rendering of one scalar, as JSON serialization would produce. -/
def renderScalar : Scalar → String
  | .sNum n => toString n
  | .sStr s => "\"" ++ s ++ "\""
  | .sBool b => toString b
  | .sNull => "null"

/-- Entries that survive serialization: properties whose value is an
`undefined`-like value are dropped. -/
def dropUndefined (vars : Vars) : List (String × Scalar) :=
  vars.filterMap (fun p => p.2.map (fun v => (p.1, v)))

/-- Lexicographic comparison of character lists by code point. -/
def charsLe : List Char → List Char → Bool
  | [], _ => true
  | _ :: _, [] => false
  | c :: cs, d :: ds =>
    if c.toNat < d.toNat then true
    else if d.toNat < c.toNat then false
    else charsLe cs ds

/-- Lexicographic string comparison used to order property names. -/
def strLe (a b : String) : Bool := charsLe a.data b.data

/-- Key order used by the canonicalizer: compare entries by property name. -/
def keyLE (a b : String × Scalar) : Prop := strLe a.1 b.1 = true

/-- Strict version of `keyLE`: key order together with distinct keys. -/
def keyLT (a b : String × Scalar) : Prop := strLe a.1 b.1 = true ∧ a.1 ≠ b.1

instance : DecidableRel keyLE := fun a b => inferInstanceAs (Decidable (_ = true))

instance : DecidableRel keyLT := fun a b => inferInstanceAs (Decidable (_ ∧ _))

/-- Sorting the defined entries of a variables object by property name. -/
def sortEntries (l : List (String × Scalar)) : List (String × Scalar) :=
  l.insertionSort keyLE

/-- Serialization of a sorted entry list, JSON style. -/
def renderEntries : List (String × Scalar) → String
  | [] => ""
  | [e] => "\"" ++ e.1 ++ "\":" ++ renderScalar e.2
  | e :: rest => "\"" ++ e.1 ++ "\":" ++ renderScalar e.2 ++ "," ++ renderEntries rest

/-- Modelled from the spec: `canonicalStringify` (imported by
`SuspenseCache.ts` from `../../cache`, whose source is not part of this
repository snapshot) maps a variables object to a stable string key,
independent of property ordering, dropping `undefined`-valued
properties, by serializing the defined entries in sorted key order. -/
def canonicalStringify (vars : Vars) : String :=
  "\x7b" ++ renderEntries (sortEntries (dropUndefined vars)) ++ "\x7d"

/-- From `SuspenseCache.getVariablesKey` (SuspenseCache.ts lines 132-134):
absent variables are replaced by an empty object before canonicalizing. -/
def getVariablesKey (vs : Option Vars) : String :=
  canonicalStringify (vs.getD [])

/-! JS `Map` model: association lists with first-match lookup. -/

/-- JS `Map.prototype.get`. -/
def mapGet {κ ν : Type} [DecidableEq κ] : List (κ × ν) → κ → Option ν
  | [], _ => none
  | p :: rest, k => if p.1 = k then some p.2 else mapGet rest k

/-- JS `Map.prototype.set`: replace the slot of an existing key in place,
otherwise append the new entry. -/
def mapSet {κ ν : Type} [DecidableEq κ] : List (κ × ν) → κ → ν → List (κ × ν)
  | [], k, v => [(k, v)]
  | p :: rest, k, v => if p.1 = k then (k, v) :: rest else p :: mapSet rest k v

/-- JS `Map.prototype.delete` (a JS map holds a key at most once). -/
def mapDelete {κ ν : Type} [DecidableEq κ] : List (κ × ν) → κ → List (κ × ν)
  | [], _ => []
  | p :: rest, k => if p.1 = k then mapDelete rest k else p :: mapDelete rest k

/-! The promise-state box of `SuspenseCache.ts`. -/

/-- From the `PromiseStatus` enum (SuspenseCache.ts lines 16-20). -/
inductive PromiseStatus where
  | pending
  | fulfilled
  | rejected
deriving DecidableEq, Repr

/-- Identity token of a query document (`DocumentNode`), compared by
object identity. -/
abbrev QueryId := Nat

/-- Identity token of an `ObservableQuery` instance. -/
abbrev ObsId := Nat

/-- The query result record (`ApolloQueryResult`): the fields the code
under verification reads and stores. -/
structure ApolloQueryResult where
  data : Option Scalar
  loading : Bool
  networkStatus : Nat
deriving DecidableEq, Repr

/-- The promise object as decorated by `SuspenseCache.add`
(SuspenseCache.ts lines 22-43 declare the intended shapes): the runtime
fields written onto the promise are `status`, `value`, `reason` and
`observable`; `id` models the JS object identity of the promise and
`status = none` models a promise the cache has not decorated yet. -/
structure WrappedSuspenseCachePromise where
  id : Nat
  status : Option PromiseStatus
  value : Option ApolloQueryResult
  reason : Option String
  observable : Option ObsId
deriving DecidableEq, Repr

/-- Outcome of the underlying asynchronous unit of work. -/
inductive Outcome where
  | success (r : ApolloQueryResult)
  | failure (e : String)
deriving DecidableEq, Repr

/-- The `then` handler registered by `SuspenseCache.add`
(SuspenseCache.ts lines 74-77): stores the whole result record as
`value` and attaches the closed-over observable onto the promise. -/
def thenHandler (observable : ObsId) (result : ApolloQueryResult)
    (p : WrappedSuspenseCachePromise) : WrappedSuspenseCachePromise :=
  { p with value := some result, observable := some observable }

/-- The `catch` handler (SuspenseCache.ts lines 78-82): sets
`status = rejected` and throws the error away (no `reason` is stored). -/
def catchHandler (p : WrappedSuspenseCachePromise) : WrappedSuspenseCachePromise :=
  { p with status := some PromiseStatus.rejected }

/-- The `finally` handler (SuspenseCache.ts lines 83-86): sets
`status = fulfilled` unconditionally (it also flips the owning entry's
`fulfilled` flag, see `settleEntry`). -/
def finallyHandler (p : WrappedSuspenseCachePromise) : WrappedSuspenseCachePromise :=
  { p with status := some PromiseStatus.fulfilled }

/-- The successive states of the box along the handler chain
`promise.then(..).catch(..).finally(..)` installed by `SuspenseCache.add`:
on success the `then` and `finally` handlers run, on failure the `catch`
and `finally` handlers run. The head is the state right after `add`. -/
def settleStates (observable : ObsId) (out : Outcome)
    (p : WrappedSuspenseCachePromise) : List WrappedSuspenseCachePromise :=
  match out with
  | .success r => [p, thenHandler observable r p, finallyHandler (thenHandler observable r p)]
  | .failure _ => [p, catchHandler p, finallyHandler (catchHandler p)]

/-- The state of the box once every settlement handler has run. -/
def settleFinal (observable : ObsId) (out : Outcome)
    (p : WrappedSuspenseCachePromise) : WrappedSuspenseCachePromise :=
  match out with
  | .success r => finallyHandler (thenHandler observable r p)
  | .failure _ => finallyHandler (catchHandler p)

/-- A cache entry (SuspenseCache.ts lines 10-14); the promise field holds
the decorated promise object. -/
structure CacheEntry where
  observable : ObsId
  fulfilled : Bool
  promise : WrappedSuspenseCachePromise
deriving DecidableEq, Repr

/-- Settlement seen at the entry level: the handler chain settles the
promise and the `finally` handler sets `entry.fulfilled = true`
(SuspenseCache.ts line 85). -/
def settleEntry (out : Outcome) (e : CacheEntry) : CacheEntry :=
  { e with promise := settleFinal e.observable out e.promise, fulfilled := true }

/-- The two-level dedup table (SuspenseCache.ts lines 52-56):
query document identity, then canonical variables key. -/
structure SuspenseCache where
  queries : List (QueryId × List (String × CacheEntry))
deriving DecidableEq, Repr

/-- `SuspenseCache.add` (SuspenseCache.ts lines 58-99): computes the
variables key, marks the promise `pending`, registers the settlement
handlers (modelled separately by `settleStates` / `settleEntry`), builds
the entry and stores it under (query, key); returns the entry. -/
def SuspenseCache.add (query : QueryId) (vs : Option Vars)
    (promise : WrappedSuspenseCachePromise) (observable : ObsId)
    (c : SuspenseCache) : CacheEntry × SuspenseCache :=
  let variablesKey := getVariablesKey vs
  let map := (mapGet c.queries query).getD []
  let p := { promise with status := some PromiseStatus.pending }
  let entry : CacheEntry := { observable := observable, fulfilled := false, promise := p }
  (entry, ⟨mapSet c.queries query (mapSet map variablesKey entry)⟩)

/-- `SuspenseCache.lookup` (SuspenseCache.ts lines 101-111). -/
def SuspenseCache.lookup (query : QueryId) (vs : Option Vars)
    (c : SuspenseCache) : Option CacheEntry :=
  (mapGet c.queries query).bind (fun m => mapGet m (getVariablesKey vs))

/-- `SuspenseCache.remove` (SuspenseCache.ts lines 113-130): a total
function; deletes the (query, key) entry only when it exists and its
observable has no observers, then drops the query level when its inner
map became empty. `hasObservers` is the environment's
`ObservableQuery.hasObservers` answer per observable identity. -/
def SuspenseCache.remove (query : QueryId) (vs : Option Vars)
    (hasObservers : ObsId → Bool) (c : SuspenseCache) : SuspenseCache :=
  match mapGet c.queries query with
  | none => c
  | some map =>
    let key := getVariablesKey vs
    let map' :=
      match mapGet map key with
      | some entry => if hasObservers entry.observable then map else mapDelete map key
      | none => map
    let queries' := mapSet c.queries query map'
    if map'.length = 0 then ⟨mapDelete queries' query⟩ else ⟨queries'⟩

/-- `useReadQuery` force-read result (useBackgroundQuery.ts lines
159-170): a pending box is thrown to suspend on, a fulfilled box yields
`promise.value` (JS `undefined` when the field is absent), a rejected
box re-throws `promise.reason`. -/
inductive ReadOutcome where
  | suspendOn (pid : Nat)
  | value (v : Option ApolloQueryResult)
  | raised (e : Option String)
  | nothing
deriving DecidableEq, Repr

/-- `useReadQuery` (src/react/hooks/useBackgroundQuery.ts lines 159-170). -/
def useReadQuery (p : WrappedSuspenseCachePromise) : ReadOutcome :=
  if p.status = some PromiseStatus.pending then ReadOutcome.suspendOn p.id
  else if p.status = some PromiseStatus.fulfilled then ReadOutcome.value p.value
  else if p.status = some PromiseStatus.rejected then ReadOutcome.raised p.reason
  else ReadOutcome.nothing

/-! Hook-level flows of `useBackgroundQuery.ts`. -/

/-- World state threaded through the hook flows: the suspense cache, a
fresh-identity allocator for new observables / promise objects, and the
log of `observable.reobserve` initial fetches issued, tagged with their
(query, canonical key) pair. -/
structure World where
  cache : SuspenseCache
  nextId : Nat
  fetchLog : List (QueryId × String)
deriving DecidableEq, Repr

/-- Number of initial fetches issued for one (query, key) pair. -/
def countFetches (query : QueryId) (key : String) (log : List (QueryId × String)) : Nat :=
  (log.filter (fun x => decide (x.1 = query ∧ x.2 = key))).length

/-- A promise object as produced by `reobserve` / `refetch` / `fetchMore`
before the cache decorates it: a fresh identity with none of the
cache-managed fields set. -/
def freshPromise (pid : Nat) : WrappedSuspenseCachePromise :=
  { id := pid, status := none, value := none, reason := none, observable := none }

/-- The render-phase lookup-or-add of `useBackgroundQuery_experimental`
(src/react/hooks/useBackgroundQuery.ts lines 110-124): look the
(query, variables) pair up in the suspense cache; on a miss, create the
observable (`client.watchQuery`), issue the initial fetch
(`observable.reobserve`, logged) and add the resulting promise to the
cache; on a hit, reuse the stored entry untouched. -/
def getOrCreate (query : QueryId) (vs : Option Vars) (w : World) : CacheEntry × World :=
  match SuspenseCache.lookup query vs w.cache with
  | some cacheEntry => (cacheEntry, w)
  | none =>
    let observable : ObsId := w.nextId
    let promise := freshPromise (w.nextId + 1)
    let (entry, cache') := SuspenseCache.add query vs promise observable w.cache
    (entry, { cache := cache', nextId := w.nextId + 2,
              fetchLog := w.fetchLog ++ [(query, getVariablesKey vs)] })

/-- The `refetch` closure returned by the hook
(src/react/hooks/useBackgroundQuery.ts lines 145-154): ask the closed-over
observable for a new promise (`observable.refetch`), then `add` it to the
suspense cache under the hook's `watchQueryOptions.variables`; the
returned promise is the same object the cache decorated. -/
def useBackgroundQueryRefetch (query : QueryId) (vs : Option Vars)
    (observable : ObsId) (w : World) : WrappedSuspenseCachePromise × World :=
  let promise := freshPromise w.nextId
  let (entry, cache') := SuspenseCache.add query vs promise observable w.cache
  (entry.promise, { w with cache := cache', nextId := w.nextId + 1 })

/-- The `fetchMore` closure returned by the hook
(src/react/hooks/useBackgroundQuery.ts lines 135-144): identical cache
behavior to `refetch`, with the new promise produced by
`observable.fetchMore`. -/
def useBackgroundQueryFetchMore (query : QueryId) (vs : Option Vars)
    (observable : ObsId) (w : World) : WrappedSuspenseCachePromise × World :=
  let promise := freshPromise w.nextId
  let (entry, cache') := SuspenseCache.add query vs promise observable w.cache
  (entry.promise, { w with cache := cache', nextId := w.nextId + 1 })

/-! The update listener of `useObservableQueryResult` (variant hook file,
src/unnamed/part_000 lines 196-213). -/

/-- Agreement of two consecutive observable results on the three gated
fields: loading flag, network status, and (deep-equal) data payload. -/
def resultsAgree (previousResult result : ApolloQueryResult) : Prop :=
  previousResult.loading = result.loading ∧
    previousResult.networkStatus = result.networkStatus ∧
      previousResult.data = result.data

instance (p r : ApolloQueryResult) : Decidable (resultsAgree p r) :=
  inferInstanceAs (Decidable (_ ∧ _ ∧ _))

/-- `handleUpdate` (src/unnamed/part_000 lines 196-213): given the stored
previous result, the freshly read current result, and the mounted flag,
returns the new stored result together with the number of `forceUpdate`
calls triggered. Equal consecutive results return early; otherwise the
ref is updated and `forceUpdate` fires only while mounted. -/
def handleUpdate (previousResult result : ApolloQueryResult)
    (isMounted : Bool) : ApolloQueryResult × Nat :=
  if resultsAgree previousResult result then
    (previousResult, 0)
  else
    (result, if isMounted then 1 else 0)

/-! Watch-query option construction (`useWatchQueryOptions`,
src/react/hooks/useBackgroundQuery.ts lines 36-83 and the identical copy
in src/unnamed/part_000 lines 39-86). -/

/-- Values stored in the built options object. -/
inductive OptVal where
  | vBool (b : Bool)
  | vStr (s : String)
  | vQuery (q : QueryId)
  | vVars (v : Vars)
deriving DecidableEq, Repr

/-- The hook options after destructuring: the four named fields the
function pulls out (`vars` models the source field `variables`), plus the
rest-spread of any remaining caller-supplied watch options (which may
itself carry a `fetchOnFirstSubscribe` entry). -/
structure SuspenseQueryHookOptions where
  errorPolicy : Option String
  fetchPolicy : Option String
  suspensePolicy : Option String
  vars : Option Vars
  rest : List (String × OptVal)
deriving DecidableEq, Repr

/-- `client.defaultOptions.watchQuery` (`vars` models the source field
`variables`). -/
structure DefaultWatchQueryOptions where
  errorPolicy : Option String
  fetchPolicy : Option String
  vars : Option Vars
deriving DecidableEq, Repr

/-- JS object spread of two variables objects: own keys of the first in
order with values overridden by the second, then the new keys of the
second. -/
def spreadMerge (a b : Vars) : Vars :=
  a.map (fun p => (p.1, ((b.find? (fun q => decide (q.1 = p.1))).map (·.2)).getD p.2)) ++
    b.filter (fun q => decide (¬ a.any (fun p => decide (p.1 = q.1))))

/-- `compact` (imported from `../../utilities`): drops properties whose
value is `undefined`-like. -/
def compact (v : Vars) : Vars :=
  v.filter (fun p => p.2.isSome)

/-- An object literal modelled as its entries in source order; reading a
property yields the last occurrence of the key, so later literal keys
override an earlier spread. -/
def objGet (obj : List (String × OptVal)) (key : String) : Option OptVal :=
  obj.foldl (fun acc p => if p.1 = key then some p.2 else acc) none

/-- `useWatchQueryOptions` (src/react/hooks/useBackgroundQuery.ts lines
36-83): spreads the caller's remaining options, then writes `query`, the
defaulted `errorPolicy` / `fetchPolicy`, `notifyOnNetworkStatusChange`
from the suspense policy, the literal `fetchOnFirstSubscribe: false`, and
the compacted merged variables. -/
def useWatchQueryOptions (query : QueryId) (options : SuspenseQueryHookOptions)
    (defaultOptions : Option DefaultWatchQueryOptions) : List (String × OptVal) :=
  let suspensePolicy := options.suspensePolicy.getD "always"
  options.rest ++
    [("query", OptVal.vQuery query),
     ("errorPolicy",
       OptVal.vStr ((options.errorPolicy.or (defaultOptions.bind (·.errorPolicy))).getD "none")),
     ("fetchPolicy",
       OptVal.vStr ((options.fetchPolicy.or (defaultOptions.bind (·.fetchPolicy))).getD "cache-first")),
     ("notifyOnNetworkStatusChange", OptVal.vBool (suspensePolicy == "always")),
     ("fetchOnFirstSubscribe", OptVal.vBool false),
     ("variables",
       OptVal.vVars (compact (spreadMerge ((defaultOptions.bind (·.vars)).getD [])
         (options.vars.getD []))))]

/-! Association-list map lemmas. -/

theorem mapGet_mapSet_self {κ ν : Type} [DecidableEq κ] (m : List (κ × ν)) (k : κ) (v : ν) :
    mapGet (mapSet m k v) k = some v := by
  induction m with
  | nil => simp [mapGet, mapSet]
  | cons p rest ih =>
    by_cases h : p.1 = k
    · simp [mapGet, mapSet, h]
    · simp [mapGet, mapSet, h, ih]

theorem mapGet_mapDelete_self {κ ν : Type} [DecidableEq κ] (m : List (κ × ν)) (k : κ) :
    mapGet (mapDelete m k) k = none := by
  induction m with
  | nil => simp [mapGet, mapDelete]
  | cons p rest ih =>
    by_cases h : p.1 = k
    · simp [mapDelete, h, ih]
    · simp [mapGet, mapDelete, h, ih]

theorem mapGet_ne_nil {κ ν : Type} [DecidableEq κ] (m : List (κ × ν)) (k : κ) (v : ν)
    (h : mapGet m k = some v) : m ≠ [] := by
  intro he
  subst he
  simp [mapGet] at h

/-! Canonical-key lemmas. -/

theorem charsLe_total (a : List Char) : ∀ b, charsLe a b = true ∨ charsLe b a = true := by
  induction a with
  | nil => intro b; left; rfl
  | cons c cs ih =>
    intro b
    cases b with
    | nil => right; rfl
    | cons d ds =>
      by_cases h1 : c.toNat < d.toNat
      · left; simp [charsLe, h1]
      · by_cases h2 : d.toNat < c.toNat
        · right; simp [charsLe, h2]
        · rcases ih ds with h | h
          · left; simp [charsLe, h1, h2, h]
          · right; simp [charsLe, h1, h2, h]

theorem charsLe_trans (a : List Char) :
    ∀ b c, charsLe a b = true → charsLe b c = true → charsLe a c = true := by
  induction a with
  | nil => intro b c _ _; rfl
  | cons x xs ih =>
    intro b c hab hbc
    cases b with
    | nil => simp [charsLe] at hab
    | cons y ys =>
      cases c with
      | nil => simp [charsLe] at hbc
      | cons z zs =>
        simp only [charsLe] at hab hbc ⊢
        by_cases h1 : x.toNat < y.toNat <;> by_cases h2 : y.toNat < x.toNat <;>
          by_cases h3 : y.toNat < z.toNat <;> by_cases h4 : z.toNat < y.toNat <;>
            simp [h1, h2, h3, h4] at hab hbc ⊢ <;>
              first
                | omega
                | (simp [show x.toNat < z.toNat by omega])
                | (simp [show ¬ x.toNat < z.toNat by omega,
                    show ¬ z.toNat < x.toNat by omega]
                   first
                     | exact ih ys zs hab hbc
                     | exact ⟨by omega, ih ys zs hab hbc⟩)

theorem char_toNat_inj {c d : Char} (h : c.toNat = d.toNat) : c = d :=
  Char.ext (UInt32.ext h)

theorem charsLe_antisymm (a : List Char) :
    ∀ b, charsLe a b = true → charsLe b a = true → a = b := by
  induction a with
  | nil =>
    intro b h1 _
    cases b with
    | nil => rfl
    | cons d ds => simp [charsLe] at *
  | cons c cs ih =>
    intro b h1 h2
    cases b with
    | nil => simp [charsLe] at h1
    | cons d ds =>
      by_cases hcd : c.toNat < d.toNat
      · simp [charsLe, hcd, Nat.lt_asymm hcd] at h2
      · by_cases hdc : d.toNat < c.toNat
        · simp [charsLe, hcd, hdc] at h1
        · have hc : c = d := char_toNat_inj (by omega)
          subst hc
          simp only [charsLe, hcd, hdc, if_neg, if_false] at h1 h2
          rw [ih ds (by simpa using h1) (by simpa using h2)]

theorem strLe_antisymm {a b : String} (h1 : strLe a b = true) (h2 : strLe b a = true) :
    a = b := by
  cases a with
  | mk da =>
    cases b with
    | mk db =>
      have : da = db := charsLe_antisymm da db h1 h2
      rw [this]

instance : IsTotal (String × Scalar) keyLE := ⟨fun a b => charsLe_total a.1.data b.1.data⟩

instance : IsTrans (String × Scalar) keyLE :=
  ⟨fun _ _ _ h h' => charsLe_trans _ _ _ h h'⟩

instance : IsAntisymm (String × Scalar) keyLT :=
  ⟨fun _ _ h h' => absurd (strLe_antisymm h.1 h'.1) h.2⟩

theorem pairwise_keyLT_of_keyLE {l : List (String × Scalar)}
    (h1 : l.Pairwise keyLE) (h2 : l.Pairwise (fun a b => a.1 ≠ b.1)) :
    l.Pairwise keyLT := by
  induction l with
  | nil => exact List.Pairwise.nil
  | cons x xs ih =>
    cases h1 with
    | cons hx1 hxs1 =>
      cases h2 with
      | cons hx2 hxs2 =>
        exact List.Pairwise.cons (fun b hb => ⟨hx1 b hb, hx2 b hb⟩) (ih hxs1 hxs2)

theorem sortEntries_sorted_lt (l : List (String × Scalar))
    (h : (l.map Prod.fst).Nodup) : List.Sorted keyLT (sortEntries l) := by
  have hperm : List.Perm (sortEntries l) l := List.perm_insertionSort keyLE l
  have hle : List.Sorted keyLE (sortEntries l) := List.sorted_insertionSort keyLE l
  have hnd : ((sortEntries l).map Prod.fst).Nodup :=
    ((hperm.map Prod.fst).nodup_iff).mpr h
  have hne : (sortEntries l).Pairwise (fun a b => a.1 ≠ b.1) :=
    (List.pairwise_map).mp hnd
  exact pairwise_keyLT_of_keyLE hle hne

/-- C7: the canonical key is independent of property ordering and of
`undefined`-like entries: for argument mappings whose normalized forms
(defined entries, order ignored) coincide, `getVariablesKey` produces the
same string, and absent variables are keyed like the empty mapping (so
the pairs from the claim — reordered objects, a lone `undefined`
property versus the empty object, and absent variables versus the empty
object — all collide on the same cache slot). -/
theorem canonical_key_order_independent (a b : Vars)
    (ha : ((dropUndefined a).map Prod.fst).Nodup)
    (hb : ((dropUndefined b).map Prod.fst).Nodup)
    (hab : List.Perm (dropUndefined a) (dropUndefined b)) :
    getVariablesKey (some a) = getVariablesKey (some b) ∧
      getVariablesKey none = getVariablesKey (some []) := by
  refine ⟨?_, rfl⟩
  have h1 : sortEntries (dropUndefined a) = sortEntries (dropUndefined b) :=
    List.eq_of_perm_of_sorted (r := keyLT)
      ((List.perm_insertionSort keyLE _).trans
        (hab.trans (List.perm_insertionSort keyLE _).symm))
      (sortEntries_sorted_lt _ ha) (sortEntries_sorted_lt _ hb)
  show canonicalStringify a = canonicalStringify b
  unfold canonicalStringify
  rw [h1]

/-- Witness for C7 at the claim's concrete pair: the mapping
with properties a = 1, b = 2 in the two orders, plus an extra
`undefined`-valued property on the second. -/
theorem canonical_key_order_independent_witness :
    ((((dropUndefined [("a", some (Scalar.sNum 1)), ("b", some (Scalar.sNum 2))]).map
            Prod.fst).Nodup ∧
        ((dropUndefined [("b", some (Scalar.sNum 2)), ("a", some (Scalar.sNum 1)),
            ("c", none)]).map Prod.fst).Nodup ∧
        List.Perm (dropUndefined [("a", some (Scalar.sNum 1)), ("b", some (Scalar.sNum 2))])
          (dropUndefined [("b", some (Scalar.sNum 2)), ("a", some (Scalar.sNum 1)),
            ("c", none)])) ∧
      getVariablesKey (some [("a", some (Scalar.sNum 1)), ("b", some (Scalar.sNum 2))]) =
        getVariablesKey (some [("b", some (Scalar.sNum 2)), ("a", some (Scalar.sNum 1)),
          ("c", none)])) :=
  ⟨⟨by decide, by decide, by decide⟩,
    (canonical_key_order_independent _ _ (by decide) (by decide) (by decide)).1⟩

/-! Promise-state box theorems. -/

/-- C1 (code bug): a box created by `SuspenseCache.add` does start at
status pending, but when the underlying unit of work rejects the `catch`
handler sets the status to rejected and the unconditional `finally`
handler then overwrites it with fulfilled, so the trace of statuses is
pending, rejected, fulfilled: the terminal rejected state is later
replaced by the other terminal state, contradicting the claim that no
settlement handler moves the status from one terminal state to the
other. -/
theorem promiseStatus_rejected_overwritten :
    (settleStates 0 (Outcome.failure "boom")
        ((SuspenseCache.add 0 none (freshPromise 1) 0 ⟨[]⟩).1.promise)).map
        WrappedSuspenseCachePromise.status =
      [some PromiseStatus.pending, some PromiseStatus.rejected,
        some PromiseStatus.fulfilled] := by
  decide

/-- C2 (counterexample): with the unit of work rejecting with the error
string boom, the settled box does not end in status rejected, stores no
reason at all, and a force-read through `useReadQuery` returns the absent
value (JS undefined) instead of re-raising the error. -/
theorem rejection_reason_discarded_cex :
    (let p := settleFinal 0 (Outcome.failure "boom")
        ((SuspenseCache.add 0 none (freshPromise 1) 0 ⟨[]⟩).1.promise)
     p.status ≠ some PromiseStatus.rejected ∧ p.reason = none ∧
       useReadQuery p = ReadOutcome.value none) := by
  decide

/-- C2 (amended): for every box created pending by `SuspenseCache.add`
whose unit of work rejects with an error E, the handler chain discards E:
the `catch` handler moves the box to rejected without storing any reason,
the `finally` handler then overwrites the status with fulfilled, the
settled box holds neither value nor reason, and every force-read through
`useReadQuery` returns the absent value (JS undefined) instead of
re-raising E — identically on every read, since the settled box no longer
changes. -/
theorem rejection_reason_discarded (err : String) (obs : ObsId)
    (p0 : WrappedSuspenseCachePromise)
    (h : p0.status = some PromiseStatus.pending ∧ p0.value = none ∧ p0.reason = none) :
    (let pF := settleFinal obs (Outcome.failure err) p0
     (catchHandler p0).status = some PromiseStatus.rejected ∧
       (catchHandler p0).reason = none ∧
       pF.status = some PromiseStatus.fulfilled ∧ pF.value = none ∧ pF.reason = none ∧
       useReadQuery pF = ReadOutcome.value none) := by
  obtain ⟨h1, h2, h3⟩ := h
  simp [settleFinal, catchHandler, finallyHandler, useReadQuery, h2, h3]

/-- Witness for C2 (amended) on the box produced by `SuspenseCache.add`
over the empty cache and the rejection outcome with error boom. -/
theorem rejection_reason_discarded_witness :
    (let p0 := (SuspenseCache.add 0 none (freshPromise 1) 0 ⟨[]⟩).1.promise
     (p0.status = some PromiseStatus.pending ∧ p0.value = none ∧ p0.reason = none) ∧
       (let pF := settleFinal 0 (Outcome.failure "boom") p0
        (catchHandler p0).status = some PromiseStatus.rejected ∧
          (catchHandler p0).reason = none ∧
          pF.status = some PromiseStatus.fulfilled ∧ pF.value = none ∧ pF.reason = none ∧
          useReadQuery pF = ReadOutcome.value none)) :=
  ⟨by decide, rejection_reason_discarded "boom" 0 _ (by decide)⟩

/-- C4 (code bug): the reachable states of a box whose unit of work
rejects violate the declared value/reason presence invariants on two
counts: the intermediate state after the `catch` handler has status
rejected with no stored reason, and the settled state has status
fulfilled with no stored value. -/
theorem box_field_status_mismatch :
    (settleStates 0 (Outcome.failure "boom")
        ((SuspenseCache.add 0 none (freshPromise 1) 0 ⟨[]⟩).1.promise)).map
        (fun p => (p.status, p.value, p.reason)) =
      [(some PromiseStatus.pending, none, none),
        (some PromiseStatus.rejected, none, none),
        (some PromiseStatus.fulfilled, none, none)] := by
  decide

/-- C10: on the successful-settlement path the `then` handler stores the
entire query-result record (its data, loading and networkStatus fields,
not only the data payload) as the box value and attaches the owning
observable onto the box, the rejection path leaves the observable
untouched, and a force-read of the settled fulfilled box through
`useReadQuery` returns that whole record. -/
theorem fulfilled_box_stores_full_result (obs : ObsId) (r : ApolloQueryResult)
    (err : String) (p0 : WrappedSuspenseCachePromise) :
    (let pF := settleFinal obs (Outcome.success r) p0
     pF.value = some r ∧
       pF.value.map ApolloQueryResult.data = some r.data ∧
       pF.value.map ApolloQueryResult.loading = some r.loading ∧
       pF.value.map ApolloQueryResult.networkStatus = some r.networkStatus ∧
       pF.observable = some obs ∧
       useReadQuery pF = ReadOutcome.value (some r)) ∧
    (settleFinal obs (Outcome.failure err) p0).observable = p0.observable := by
  constructor
  · simp [settleFinal, thenHandler, finallyHandler, useReadQuery]
  · simp [settleFinal, catchHandler, finallyHandler]

/-! Cache dedup lemmas and theorems. -/

theorem lookup_add_self (query : QueryId) (vs : Option Vars)
    (p : WrappedSuspenseCachePromise) (observable : ObsId) (c : SuspenseCache) :
    SuspenseCache.lookup query vs (SuspenseCache.add query vs p observable c).2 =
      some (SuspenseCache.add query vs p observable c).1 := by
  simp [SuspenseCache.lookup, SuspenseCache.add, mapGet_mapSet_self]

theorem lookup_key_congr (query : QueryId) (a b : Option Vars) (c : SuspenseCache)
    (hkey : getVariablesKey a = getVariablesKey b) :
    SuspenseCache.lookup query a c = SuspenseCache.lookup query b c := by
  simp [SuspenseCache.lookup, hkey]

theorem countFetches_append (query : QueryId) (key : String)
    (l l' : List (QueryId × String)) :
    countFetches query key (l ++ l') =
      countFetches query key l + countFetches query key l' := by
  simp [countFetches, List.filter_append]

theorem getOrCreate_hit (query : QueryId) (vs : Option Vars) (w : World)
    (e : CacheEntry) (h : SuspenseCache.lookup query vs w.cache = some e) :
    getOrCreate query vs w = (e, w) := by
  simp [getOrCreate, h]

theorem getOrCreate_miss (query : QueryId) (vs : Option Vars) (w : World)
    (h : SuspenseCache.lookup query vs w.cache = none) :
    getOrCreate query vs w =
      ((SuspenseCache.add query vs (freshPromise (w.nextId + 1)) w.nextId w.cache).1,
        { cache := (SuspenseCache.add query vs (freshPromise (w.nextId + 1))
              w.nextId w.cache).2,
          nextId := w.nextId + 2,
          fetchLog := w.fetchLog ++ [(query, getVariablesKey vs)] }) := by
  simp [getOrCreate, h]

/-- C3: two lookup-or-add requests performed in sequence with the same
query and canonically-equal variable sets return the identical cache
entry (hence the same promise object and the same observable), leave the
world unchanged on the second request, and issue exactly one initial
fetch (`observable.reobserve`) for that (query, key) pair, assuming the
pair was not cached and had no fetch issued beforehand. -/
theorem dedup_single_fetch (query : QueryId) (a b : Option Vars) (w : World)
    (hkey : getVariablesKey a = getVariablesKey b)
    (hmiss : SuspenseCache.lookup query a w.cache = none)
    (hlog : countFetches query (getVariablesKey a) w.fetchLog = 0) :
    (let r1 := getOrCreate query a w
     let r2 := getOrCreate query b r1.2
     r2.1 = r1.1 ∧ r2.2 = r1.2 ∧
       countFetches query (getVariablesKey a) r2.2.fetchLog = 1) := by
  have hm := getOrCreate_miss query a w hmiss
  have h2 : getOrCreate query b (getOrCreate query a w).2 =
      ((getOrCreate query a w).1, (getOrCreate query a w).2) := by
    rw [hm]
    exact getOrCreate_hit query b _ _
      (by rw [← lookup_key_congr query a b _ hkey]; exact lookup_add_self query a _ _ _)
  refine ⟨?_, ?_, ?_⟩
  · rw [h2]
  · rw [h2]
  · rw [h2]
    have h3 : (getOrCreate query a w).2.fetchLog =
        w.fetchLog ++ [(query, getVariablesKey a)] := by
      rw [hm]
    rw [h3, countFetches_append, hlog]
    simp [countFetches]

/-- Witness for C3: the empty world, with the two variable orderings of
the mapping a = 1, b = 2. -/
theorem dedup_single_fetch_witness :
    (let a : Option Vars := some [("a", some (Scalar.sNum 1)), ("b", some (Scalar.sNum 2))]
     let b : Option Vars := some [("b", some (Scalar.sNum 2)), ("a", some (Scalar.sNum 1))]
     let w : World := ⟨⟨[]⟩, 0, []⟩
     (getVariablesKey a = getVariablesKey b ∧
        SuspenseCache.lookup 0 a w.cache = none ∧
        countFetches 0 (getVariablesKey a) w.fetchLog = 0) ∧
       (let r1 := getOrCreate 0 a w
        let r2 := getOrCreate 0 b r1.2
        r2.1 = r1.1 ∧ r2.2 = r1.2 ∧
          countFetches 0 (getVariablesKey a) r2.2.fetchLog = 1)) :=
  ⟨⟨by decide, by decide, by decide⟩,
    dedup_single_fetch 0 _ _ _ (by decide) (by decide) (by decide)⟩

/-- C5: a `refetch` or `fetchMore` issued on an existing subscription
stores under the same (query, key) a new entry whose promise is a fresh,
distinct object (its identity differs from the previous promise's),
whose status is initially pending, and whose observable is the very
observable the hook closure reuses (the one of the previous entry); the
promise handed back to the caller is that same decorated promise. -/
theorem refetch_replaces_promise (query : QueryId) (vs : Option Vars) (w : World)
    (e : CacheEntry)
    (hl : SuspenseCache.lookup query vs w.cache = some e)
    (hid : e.promise.id < w.nextId) :
    ((let r := useBackgroundQueryRefetch query vs e.observable w
      ∃ e', SuspenseCache.lookup query vs r.2.cache = some e' ∧
        e'.promise = r.1 ∧
        e'.promise.id ≠ e.promise.id ∧
        e'.promise.status = some PromiseStatus.pending ∧
        e'.observable = e.observable) ∧
     (let r := useBackgroundQueryFetchMore query vs e.observable w
      ∃ e', SuspenseCache.lookup query vs r.2.cache = some e' ∧
        e'.promise = r.1 ∧
        e'.promise.id ≠ e.promise.id ∧
        e'.promise.status = some PromiseStatus.pending ∧
        e'.observable = e.observable)) := by
  constructor <;>
    exact ⟨(SuspenseCache.add query vs (freshPromise w.nextId) e.observable w.cache).1,
      lookup_add_self query vs _ _ _, rfl, (Nat.ne_of_lt hid).symm, rfl, rfl⟩

/-- Witness for C5: a world holding one entry created by `getOrCreate`
for query 7 with no variables, then refetched and fetch-mored. -/
theorem refetch_replaces_promise_witness :
    (let w := (getOrCreate 7 none ⟨⟨[]⟩, 0, []⟩).2
     let e := (getOrCreate 7 none ⟨⟨[]⟩, 0, []⟩).1
     (SuspenseCache.lookup 7 none w.cache = some e ∧ e.promise.id < w.nextId) ∧
       ((let r := useBackgroundQueryRefetch 7 none e.observable w
         ∃ e', SuspenseCache.lookup 7 none r.2.cache = some e' ∧
           e'.promise = r.1 ∧
           e'.promise.id ≠ e.promise.id ∧
           e'.promise.status = some PromiseStatus.pending ∧
           e'.observable = e.observable) ∧
        (let r := useBackgroundQueryFetchMore 7 none e.observable w
         ∃ e', SuspenseCache.lookup 7 none r.2.cache = some e' ∧
           e'.promise = r.1 ∧
           e'.promise.id ≠ e.promise.id ∧
           e'.promise.status = some PromiseStatus.pending ∧
           e'.observable = e.observable))) :=
  ⟨⟨by decide, by decide⟩,
    refetch_replaces_promise 7 none _ _ (by decide) (by decide)⟩

/-- C6: `remove` is total (hence never raises) and removes the
(query, key) entry exactly when it exists and its observable reports no
observers; when the query level is absent, the key is absent, or the
observable still has observers, the entry (or its absence) is left
untouched. -/
theorem remove_is_safe (c : SuspenseCache) (query : QueryId) (vs : Option Vars)
    (hasObservers : ObsId → Bool) :
    (∀ e, SuspenseCache.lookup query vs c = some e → hasObservers e.observable = false →
        SuspenseCache.lookup query vs (SuspenseCache.remove query vs hasObservers c) =
          none) ∧
    (∀ e, SuspenseCache.lookup query vs c = some e → hasObservers e.observable = true →
        SuspenseCache.lookup query vs (SuspenseCache.remove query vs hasObservers c) =
          some e) ∧
    (SuspenseCache.lookup query vs c = none →
        SuspenseCache.lookup query vs (SuspenseCache.remove query vs hasObservers c) =
          none) := by
  cases hq : mapGet c.queries query with
  | none =>
    have hrm : SuspenseCache.remove query vs hasObservers c = c := by
      simp [SuspenseCache.remove, hq]
    have hlk : SuspenseCache.lookup query vs c = none := by
      simp [SuspenseCache.lookup, hq]
    refine ⟨?_, ?_, ?_⟩
    · intro e he; rw [hlk] at he; simp at he
    · intro e he; rw [hlk] at he; simp at he
    · intro _; rw [hrm, hlk]
  | some map =>
    have hlk : SuspenseCache.lookup query vs c = mapGet map (getVariablesKey vs) := by
      simp [SuspenseCache.lookup, hq]
    cases hk : mapGet map (getVariablesKey vs) with
    | none =>
      refine ⟨?_, ?_, ?_⟩
      · intro e he _; rw [hlk, hk] at he; simp at he
      · intro e he _; rw [hlk, hk] at he; simp at he
      · intro _
        have hrm : SuspenseCache.remove query vs hasObservers c =
            (if map.length = 0 then
              (⟨mapDelete (mapSet c.queries query map) query⟩ : SuspenseCache)
             else ⟨mapSet c.queries query map⟩) := by
          simp [SuspenseCache.remove, hq, hk]
        rw [hrm]
        by_cases hlen : map.length = 0
        · simp [hlen, SuspenseCache.lookup, mapGet_mapDelete_self]
        · simp [hlen, SuspenseCache.lookup, mapGet_mapSet_self, hk]
    | some e0 =>
      refine ⟨?_, ?_, ?_⟩
      · intro e he hobs
        rw [hlk, hk] at he
        have hee : e0 = e := Option.some.inj he
        subst hee
        have hrm : SuspenseCache.remove query vs hasObservers c =
            (if (mapDelete map (getVariablesKey vs)).length = 0 then
              (⟨mapDelete (mapSet c.queries query
                  (mapDelete map (getVariablesKey vs))) query⟩ : SuspenseCache)
             else ⟨mapSet c.queries query (mapDelete map (getVariablesKey vs))⟩) := by
          simp [SuspenseCache.remove, hq, hk, hobs]
        rw [hrm]
        by_cases hlen : (mapDelete map (getVariablesKey vs)).length = 0
        · simp [hlen, SuspenseCache.lookup, mapGet_mapDelete_self]
        · simp [hlen, SuspenseCache.lookup, mapGet_mapSet_self, mapGet_mapDelete_self]
      · intro e he hobs
        rw [hlk, hk] at he
        have hee : e0 = e := Option.some.inj he
        subst hee
        have hne : ¬ map.length = 0 := by
          intro h0
          exact mapGet_ne_nil map (getVariablesKey vs) e0 hk (List.length_eq_zero.mp h0)
        have hrm : SuspenseCache.remove query vs hasObservers c =
            ⟨mapSet c.queries query map⟩ := by
          simp [SuspenseCache.remove, hq, hk, hobs, hne]
        rw [hrm]
        simp [SuspenseCache.lookup, mapGet_mapSet_self, hk]
      · intro hnone; rw [hlk, hk] at hnone; simp at hnone

/-- Witness for C6: one cache with a single entry, removed once with an
observer-free observable (entry goes), once with a live observable
(entry stays), and probed at an absent key. -/
theorem remove_is_safe_witness :
    (let c := (getOrCreate 3 none ⟨⟨[]⟩, 0, []⟩).2.cache
     let e := (getOrCreate 3 none ⟨⟨[]⟩, 0, []⟩).1
     (SuspenseCache.lookup 3 none c = some e ∧
        (fun _ : ObsId => false) e.observable = false ∧
        (fun _ : ObsId => true) e.observable = true ∧
        SuspenseCache.lookup 4 none c = none) ∧
       SuspenseCache.lookup 3 none
           (SuspenseCache.remove 3 none (fun _ => false) c) = none ∧
       SuspenseCache.lookup 3 none
           (SuspenseCache.remove 3 none (fun _ => true) c) = some e ∧
       SuspenseCache.lookup 4 none
           (SuspenseCache.remove 4 none (fun _ => false) c) = none) :=
  ⟨⟨by decide, by decide, by decide, by decide⟩,
    (remove_is_safe _ 3 none (fun _ => false)).1
      (getOrCreate 3 none ⟨⟨[]⟩, 0, []⟩).1 (by decide) (by decide),
    (remove_is_safe _ 3 none (fun _ => true)).2.1
      (getOrCreate 3 none ⟨⟨[]⟩, 0, []⟩).1 (by decide) (by decide),
    (remove_is_safe _ 4 none (fun _ => false)).2.2 (by decide)⟩

/-! Update-listener theorems. -/

/-- C8 (counterexample): two consecutive results that differ on all three
gated fields, handled while the component is not mounted (suspended),
trigger zero `forceUpdate` calls — not exactly one as the claim states
for every differing pair. -/
theorem equality_gating_unmounted_cex :
    (let prev : ApolloQueryResult := ⟨none, true, 1⟩
     let cur : ApolloQueryResult := ⟨some (Scalar.sStr "x"), false, 7⟩
     ¬ resultsAgree prev cur ∧ handleUpdate prev cur false = (cur, 0)) := by
  decide

/-- C8 (amended): for every pair of consecutive results, `handleUpdate`
leaves the stored previous result unchanged and triggers zero
`forceUpdate` calls when the two results agree on the loading flag, the
network status and the (deep-equal) data payload; when any of the three
differ it stores the new result and triggers `forceUpdate` exactly once
if the component is mounted, and zero times while it is unmounted or
suspended. -/
theorem equality_gating (previousResult result : ApolloQueryResult) (isMounted : Bool) :
    (resultsAgree previousResult result →
        handleUpdate previousResult result isMounted = (previousResult, 0)) ∧
    (¬ resultsAgree previousResult result →
        handleUpdate previousResult result isMounted =
          (result, if isMounted then 1 else 0)) := by
  constructor
  · intro h; simp [handleUpdate, h]
  · intro h; simp [handleUpdate, h]

/-- Witness for C8 (amended): an agreeing pair swallowed with no
notification, and a differing pair notified exactly once while
mounted. -/
theorem equality_gating_witness :
    ((resultsAgree ⟨none, true, 1⟩ ⟨none, true, 1⟩ ∧
        handleUpdate ⟨none, true, 1⟩ ⟨none, true, 1⟩ true = (⟨none, true, 1⟩, 0)) ∧
      (¬ resultsAgree ⟨none, true, 1⟩ ⟨none, false, 2⟩ ∧
        handleUpdate ⟨none, true, 1⟩ ⟨none, false, 2⟩ true =
          (⟨none, false, 2⟩, if true then 1 else 0))) :=
  ⟨⟨by decide, (equality_gating ⟨none, true, 1⟩ ⟨none, true, 1⟩ true).1 (by decide)⟩,
    ⟨by decide, (equality_gating ⟨none, true, 1⟩ ⟨none, false, 2⟩ true).2 (by decide)⟩⟩

/-! Watch-query option theorems. -/

/-- C9: whatever the caller-supplied hook options and client defaults,
the options object handed to the observable-query factory carries
`fetchOnFirstSubscribe = false`: the literal entry written after the
rest-spread overrides any caller-supplied value, so the first external
subscription never auto-starts a duplicate fetch. -/
theorem fetch_on_first_subscribe_disabled (query : QueryId)
    (options : SuspenseQueryHookOptions)
    (defaultOptions : Option DefaultWatchQueryOptions) :
    objGet (useWatchQueryOptions query options defaultOptions) "fetchOnFirstSubscribe" =
      some (OptVal.vBool false) := by
  unfold useWatchQueryOptions objGet
  rw [List.foldl_append]
  rfl
